import Mathlib

/-!
Verification development for the TicketAI backend core.

This file gives a shallow embedding of the three core source files of the
repository and proves the stated properties about them:

* the smart routing engine (src/unnamed/part_002, exporting route,
  applyRoutingRules, matchesRule, findTeamByCategory, findBestAgentInTeam,
  shouldEscalate, findSeniorAgent, findLeastBusyAgent,
  calculateRoutingConfidence);
* the AI classification client (src/src/ai/classifier.js, classify);
* the queue worker (src/src/utils/queue-worker.js, QueueWorker.processJob and
  QueueWorker.isRetryableError).

Modelling conventions for the JavaScript source:

* JS numbers are modelled as rationals; machine floating point is not
  modelled, so numeric identities below are exact.
* A field that may be null or undefined is modelled as an Option; the JS
  idiom x or-else d for numbers is jsOrNum (note that 0 is falsy in JS, so
  a stored 0 also picks the default), and truthiness of an optional string
  is the negation of jsFalsyStr (null, undefined and the empty string are
  falsy).
* JS stable Array.prototype.sort with a numeric comparator is modelled by
  the stable List.insertionSort on the corresponding total preorder.
* String.prototype.includes is substring containment, modelled on the
  character lists; toLowerCase is String.toLower.
* Dynamic field access ticket[key] in rule matching is modelled by tget,
  which maps the known ticket columns and falls back to an extra
  association list for any further columns a rule may mention.
* The asynchronous external calls (the AI completion, the database writes,
  the redis queue) are modelled by passing their outcome in as data: the
  classifier takes the parsed upstream response as an Option (none when the
  transport, the JSON parse, or the completion itself failed), and the
  worker takes the error, if any, raised inside its try block.
-/

namespace TicketAI

/-- JS values that can appear in a ticket field or a rule condition.
Strings, numbers and booleans cover every field the routing code reads;
null and undefined are kept separate because strict equality separates
them. -/
inductive JsValue where
  | undefined : JsValue
  | null : JsValue
  | str : String → JsValue
  | num : ℚ → JsValue
  | boolean : Bool → JsValue
deriving DecidableEq

/-- Strict equality a === b of two modelled JS values. -/
def jsEq (a b : JsValue) : Bool := decide (a = b)

/-- Numeric coercion used by the JS relational operators: numbers are
themselves, booleans coerce to 0 or 1, null coerces to 0, undefined is NaN
(none). Numeric strings are not modelled and coerce to none, so a
comparison that JS would decide by numeric string coercion is modelled as
false. -/
def jsToNum : JsValue → Option ℚ
  | .num q => some q
  | .boolean b => some (if b then 1 else 0)
  | .null => some 0
  | .undefined => none
  | .str _ => none

/-- JS a < b: lexicographic on two strings, numeric after coercion
otherwise; false whenever a side coerces to NaN. -/
def jsLtVal (a b : JsValue) : Bool :=
  match a, b with
  | .str s, .str t => decide (s < t)
  | x, y =>
    match jsToNum x, jsToNum y with
    | some p, some q => decide (p < q)
    | _, _ => false

/-- JS a > b. -/
def jsGtVal (a b : JsValue) : Bool := jsLtVal b a

/-- JS a <= b. -/
def jsLeVal (a b : JsValue) : Bool :=
  match a, b with
  | .str s, .str t => !decide (t < s)
  | x, y =>
    match jsToNum x, jsToNum y with
    | some p, some q => decide (p ≤ q)
    | _, _ => false

/-- JS a >= b. -/
def jsGeVal (a b : JsValue) : Bool := jsLeVal b a

/-- Truthiness of an optional string: null, undefined and the empty string
are falsy. -/
def jsFalsyStr : Option String → Bool
  | none => true
  | some s => s.isEmpty

/-- The JS idiom x or-else d for an optional numeric field: undefined,
null and 0 are falsy, so they all yield the default. -/
def jsOrNum (x : Option ℚ) (d : ℚ) : ℚ :=
  match x with
  | some v => if v = 0 then d else v
  | none => d

/-- String.prototype.includes: substring containment, as contiguous
sublist containment on the character lists. -/
def strIncludes (s pat : String) : Bool := decide (List.IsInfix pat.toList s.toList)

/-- A rule condition value, after Object.entries dispatch in matchesRule:
an array literal (one-of), an operator object with the keys gt, lt, gte,
lte, ne (a JSON null condition value also lands in this branch, with every
operator absent, because typeof null is object), or a primitive compared
with strict equality. -/
inductive CondValue where
  | arr : List JsValue → CondValue
  | cmp : Option JsValue → Option JsValue → Option JsValue → Option JsValue → Option JsValue → CondValue
  | prim : JsValue → CondValue
deriving DecidableEq

/-- Ticket row as read by the routing engine. Known columns the routing
code dereferences are explicit; extra holds any further columns a routing
rule may mention. -/
structure Ticket where
  subject : String := ""
  body : String := ""
  category : Option String := none
  priority : Option String := none
  sentiment : Option String := none
  sentiment_score : Option ℚ := none
  ai_processed : Bool := false
  ai_confidence : Option ℚ := none
  extra : List (String × JsValue) := []
deriving DecidableEq

/-- Dynamic field access ticket[key] used by matchesRule. A null database
column is JS null; a column absent from the row is undefined. -/
def tget (t : Ticket) (k : String) : JsValue :=
  if k = "subject" then .str t.subject
  else if k = "body" then .str t.body
  else if k = "category" then (match t.category with | some s => .str s | none => .null)
  else if k = "priority" then (match t.priority with | some s => .str s | none => .null)
  else if k = "sentiment" then (match t.sentiment with | some s => .str s | none => .null)
  else if k = "sentiment_score" then (match t.sentiment_score with | some q => .num q | none => .null)
  else if k = "ai_processed" then .boolean t.ai_processed
  else if k = "ai_confidence" then (match t.ai_confidence with | some q => .num q | none => .null)
  else (t.extra.lookup k).getD .undefined

/-- Team membership row joined onto an agent. -/
structure TeamMember where
  team_id : String
  is_team_lead : Bool := false
deriving DecidableEq

/-- Agent row as read by the routing engine. -/
structure Agent where
  id : String
  first_name : String := ""
  role : Option String := none
  skills : Option (List String) := none
  team_members : Option (List TeamMember) := none
  current_ticket_count : Option ℚ := none
  max_tickets : Option ℚ := none
  is_active : Bool := true
deriving DecidableEq

/-- Team row as read by the routing engine. -/
structure Team where
  id : String
  name : String := ""
  skills : Option (List String) := none
deriving DecidableEq

/-- Routing rule row. -/
structure Rule where
  name : String := ""
  priority : Option ℤ := none
  conditions : Option (List (String × CondValue)) := none
  assign_to_team : Option String := none
  assign_to_user : Option String := none
  set_priority : Option String := none
  add_tags : Option (List String) := none
  is_active : Bool := true
deriving DecidableEq

/-- The actions object applyRoutingRules returns for the first matching
rule. -/
structure RuleActions where
  ruleName : String
  assign_to_team : Option String
  assign_to_user : Option String
  set_priority : Option String
  add_tags : Option (List String)
deriving DecidableEq

/-- The routing decision object built by route. -/
structure Routing where
  assignToUser : Option String
  assignToTeam : Option String
  setPriority : Option String
  addTags : List String
  reason : String
  confidence : ℚ
deriving DecidableEq

/-- One condition entry of matchesRule: array means one-of under strict
equality; an operator object requires each present operator to hold; a
primitive is strict equality. -/
def condHolds (tv : JsValue) (c : CondValue) : Bool :=
  match c with
  | .arr vals => vals.any (fun v => jsEq v tv)
  | .cmp gt lt gte lte ne =>
    (match gt with | some g => jsGtVal tv g | none => true) &&
    (match lt with | some l => jsLtVal tv l | none => true) &&
    (match gte with | some g => jsGeVal tv g | none => true) &&
    (match lte with | some l => jsLeVal tv l | none => true) &&
    (match ne with | some n => !jsEq tv n | none => true)
  | .prim v => jsEq tv v

/-- matchesRule from part_002: a null or undefined condition set never
matches; otherwise every entry must hold against the ticket field of the
same name (vacuously true for an empty condition object). -/
def matchesRule (t : Ticket) (conds : Option (List (String × CondValue))) : Bool :=
  match conds with
  | none => false
  | some cs => cs.all (fun kv => condHolds (tget t kv.1) kv.2)

/-- The JS comparator (b.priority or 0) - (a.priority or 0): rules sort by
descending priority; this is the effective priority of a rule. -/
def jsPrio (r : Rule) : ℤ := r.priority.getD 0

/-- The total preorder the rule sort uses: a may come before b when the
priority of b does not exceed the priority of a. -/
def ruleGE (a b : Rule) : Prop := jsPrio b ≤ jsPrio a

instance : DecidableRel ruleGE := fun a b => inferInstanceAs (Decidable (jsPrio b ≤ jsPrio a))

instance : IsTotal Rule ruleGE := ⟨fun a b => le_total (jsPrio b) (jsPrio a)⟩

instance : IsTrans Rule ruleGE := ⟨fun _ _ _ h1 h2 => le_trans h2 h1⟩

/-- applyRoutingRules from part_002: stable sort by descending priority,
then the first rule whose conditions match wins and its actions are
returned. -/
def applyRoutingRules (t : Ticket) (rules : List Rule) : Option RuleActions :=
  if rules.isEmpty then none
  else
    match (List.insertionSort ruleGE rules).find? (fun r => matchesRule t r.conditions) with
    | some r => some ⟨r.name, r.assign_to_team, r.assign_to_user, r.set_priority, r.add_tags⟩
    | none => none

/-- Fixed category to team-skill table of findTeamByCategory. -/
def categoryToSkills : List (String × List String) :=
  [("billing", ["billing", "payments", "finance"]),
   ("technical", ["technical", "engineering", "support"]),
   ("feature_request", ["product", "feedback"]),
   ("bug", ["technical", "engineering", "qa"]),
   ("account", ["account", "customer_success"]),
   ("general", ["support", "general"])]

/-- findTeamByCategory from part_002: first team whose skill list meets the
relevant skills for the category, else the first team. -/
def findTeamByCategory (category : String) (teams : List Team) : Option Team :=
  if teams.isEmpty then none
  else
    let relevantSkills := (categoryToSkills.lookup category).getD ["support"]
    match teams.find? (fun team =>
      match team.skills with
      | none => false
      | some sk => !sk.isEmpty && relevantSkills.any (fun s => sk.contains s)) with
    | some t => some t
    | none => teams.head?

/-- The narrower category to agent-skill table inside findBestAgentInTeam. -/
def categorySkills : List (String × List String) :=
  [("billing", ["billing", "finance"]),
   ("technical", ["technical", "engineering"]),
   ("feature_request", ["product"]),
   ("bug", ["technical", "qa"]),
   ("account", ["account", "customer_success"])]

/-- Membership test of an agent in a team, as filtered by
findBestAgentInTeam. -/
def teamFilter (teamId : String) (a : Agent) : Bool :=
  match a.team_members with
  | none => false
  | some tms => tms.any (fun tm => tm.team_id == teamId)

/-- The score findBestAgentInTeam assigns to an agent: 10 per relevant
skill match, 20 times availability, plus 5 when the agent leads the team. -/
def scoreAgent (teamId : String) (ticket : Ticket) (a : Agent) : ℚ :=
  let skillScore : ℚ :=
    match a.skills, ticket.category with
    | some sk, some cat =>
      if cat.isEmpty then 0
      else ((((categorySkills.lookup cat).getD []).filter (fun s => sk.contains s)).length : ℚ) * 10
    | _, _ => 0
  let currentLoad := jsOrNum a.current_ticket_count 0
  let maxTickets := jsOrNum a.max_tickets 10
  let availability : ℚ := 1 - currentLoad / maxTickets
  let leadBonus : ℚ :=
    match a.team_members with
    | some tms => if tms.any (fun tm => tm.team_id == teamId && tm.is_team_lead) then 5 else 0
    | none => 0
  skillScore + availability * 20 + leadBonus

/-- The total preorder for the descending score sort of scored agents. -/
def scoredGE (x y : Agent × ℚ) : Prop := y.2 ≤ x.2

instance : DecidableRel scoredGE := fun x y => inferInstanceAs (Decidable (y.2 ≤ x.2))

instance : IsTotal (Agent × ℚ) scoredGE := ⟨fun x y => le_total y.2 x.2⟩

instance : IsTrans (Agent × ℚ) scoredGE := ⟨fun _ _ _ h1 h2 => le_trans h2 h1⟩

/-- findBestAgentInTeam from part_002: filter the pool to the agents of
the team, score each, stable-sort by descending score, take the first. -/
def findBestAgentInTeam (teamId : String) (agents : List Agent) (ticket : Ticket) : Option Agent :=
  if agents.isEmpty then none
  else if (agents.filter (teamFilter teamId)).isEmpty then none
  else
    (List.insertionSort scoredGE
      ((agents.filter (teamFilter teamId)).map (fun a => (a, scoreAgent teamId ticket a)))).head?.map
      Prod.fst

/-- Fixed escalation keyword lexicon of shouldEscalate. -/
def escalationKeywords : List String :=
  ["cancel", "refund", "lawsuit", "lawyer", "legal",
   "manager", "supervisor", "escalate", "complaint",
   "terrible", "awful", "unacceptable", "fraud"]

/-- String.prototype.toLowerCase, as a character-wise map over the string
data (the source only ever lowercases ASCII keyword text). -/
def strLower (s : String) : String := String.mk (s.data.map Char.toLower)

/-- The lowercased subject-space-body text shouldEscalate scans. -/
def escalationText (t : Ticket) : String := strLower (t.subject ++ " " ++ t.body)

/-- The sentiment-score test of shouldEscalate; a null or absent score is
not below the threshold (undefined compares false in JS). -/
def sentimentScoreLow (t : Ticket) : Bool :=
  match t.sentiment_score with
  | some q => decide (q < -(1/2 : ℚ))
  | none => false

/-- shouldEscalate from part_002. The early-return chain of the source is
folded into a boolean disjunction of the same four tests, in order. -/
def shouldEscalate (t : Ticket) : Bool :=
  (t.priority == some "urgent")
  || (t.sentiment == some "very_negative")
  || sentimentScoreLow t
  || escalationKeywords.any (fun k => strIncludes (escalationText t) k)

/-- The load ratio findLeastBusyAgent sorts by: open tickets over capacity,
with 0 and 10 as the respective defaults for absent (or zero) fields. -/
def agentLoad (a : Agent) : ℚ := jsOrNum a.current_ticket_count 0 / jsOrNum a.max_tickets 10

/-- The total preorder for the ascending load-ratio sort. -/
def agentLE (a b : Agent) : Prop := agentLoad a ≤ agentLoad b

instance : DecidableRel agentLE := fun a b => inferInstanceAs (Decidable (agentLoad a ≤ agentLoad b))

instance : IsTotal Agent agentLE := ⟨fun a b => le_total (agentLoad a) (agentLoad b)⟩

instance : IsTrans Agent agentLE := ⟨fun _ _ _ h1 h2 => le_trans h1 h2⟩

/-- findLeastBusyAgent from part_002: stable sort by ascending load ratio,
take the first. -/
def findLeastBusyAgent (agents : List Agent) : Option Agent :=
  if agents.isEmpty then none
  else (List.insertionSort agentLE agents).head?

/-- The team-lead filter of findSeniorAgent: a lead membership row, further
restricted to the given team when one is (truthily) given. -/
def leadFilter (teamId : Option String) (a : Agent) : Bool :=
  match a.team_members with
  | none => false
  | some tms => tms.any (fun tm => tm.is_team_lead && (jsFalsyStr teamId || teamId == some tm.team_id))

/-- The team leads findSeniorAgent prefers. -/
def leadsOf (agents : List Agent) (teamId : Option String) : List Agent :=
  agents.filter (leadFilter teamId)

/-- The manager fallback pool of findSeniorAgent. -/
def managersOf (agents : List Agent) : List Agent :=
  agents.filter (fun a => a.role == some "manager")

/-- findSeniorAgent from part_002: least busy team lead of the preferred
team if any lead exists, else least busy manager, else none. -/
def findSeniorAgent (agents : List Agent) (teamId : Option String) : Option Agent :=
  if agents.isEmpty then none
  else if !(leadsOf agents teamId).isEmpty then findLeastBusyAgent (leadsOf agents teamId)
  else if !(managersOf agents).isEmpty then findLeastBusyAgent (managersOf agents)
  else none

/-- The high-confidence test of calculateRoutingConfidence; an absent
ai_confidence compares false. -/
def aiConfidenceHigh (t : Ticket) : Bool :=
  match t.ai_confidence with
  | some q => decide ((4/5 : ℚ) < q)
  | none => false

/-- calculateRoutingConfidence from part_002: start at one half, add for a
full assignment, for prior AI processing and for high prior AI confidence,
then clamp at 1. -/
def calculateRoutingConfidence (routing : Routing) (ticket : Ticket) : ℚ :=
  let c1 : ℚ := 1/2
  let c2 := if !jsFalsyStr routing.assignToTeam && !jsFalsyStr routing.assignToUser then c1 + 3/10 else c1
  let c3 := if ticket.ai_processed then c2 + 1/10 else c2
  let c4 := if aiConfidenceHigh ticket then c3 + 1/10 else c3
  min 1 c4

/-- Step 1 of route: apply the routing rules to a fresh decision. -/
def stepRules (ticket : Ticket) (rules : List Rule) : Routing :=
  let r0 : Routing :=
    { assignToUser := none, assignToTeam := none, setPriority := none,
      addTags := [], reason := "", confidence := 0 }
  match applyRoutingRules ticket rules with
  | some m =>
    { r0 with
      assignToTeam := m.assign_to_team,
      assignToUser := m.assign_to_user,
      setPriority := m.set_priority,
      addTags := m.add_tags.getD [],
      reason := "Matched routing rule: " ++ m.ruleName,
      confidence := 9/10 }
  | none => r0

/-- Step 2 of route: category fallback for the team. -/
def stepCategory (ticket : Ticket) (teams : List Team) (r : Routing) : Routing :=
  if jsFalsyStr r.assignToTeam && !jsFalsyStr ticket.category then
    match findTeamByCategory (ticket.category.getD "") teams with
    | some tm =>
      { r with
        assignToTeam := some tm.id,
        reason := if r.reason.isEmpty then "Routed to " ++ tm.name ++ " team based on category" else r.reason }
    | none => r
  else r

/-- Step 3 of route: best agent of the assigned team. -/
def stepBestAgent (ticket : Ticket) (agents : List Agent) (r : Routing) : Routing :=
  if !jsFalsyStr r.assignToTeam && jsFalsyStr r.assignToUser then
    match findBestAgentInTeam (r.assignToTeam.getD "") agents ticket with
    | some a =>
      { r with
        assignToUser := some a.id,
        reason := r.reason ++ " -> Assigned to " ++ a.first_name }
    | none => r
  else r

/-- Step 4 of route: escalation override and senior reassignment. -/
def stepEscalate (ticket : Ticket) (agents : List Agent) (r : Routing) : Routing :=
  if shouldEscalate ticket then
    let r1 := { r with setPriority := some "urgent", addTags := r.addTags ++ ["escalated"] }
    match findSeniorAgent agents r1.assignToTeam with
    | some a =>
      { r1 with
        assignToUser := some a.id,
        reason := r1.reason ++ " (Escalated to senior agent)" }
    | none => r1
  else r

/-- Step 5 of route: load balancing when nothing was assigned. -/
def stepLoadBalance (agents : List Agent) (r : Routing) : Routing :=
  if jsFalsyStr r.assignToUser && jsFalsyStr r.assignToTeam then
    match findLeastBusyAgent agents with
    | some a =>
      { r with
        assignToUser := some a.id,
        reason := "Assigned via load balancing" }
    | none => r
  else r

/-- The decision state after steps 1 and 2 of route. -/
def routeAfterStep2 (ticket : Ticket) (teams : List Team) (rules : List Rule) : Routing :=
  stepCategory ticket teams (stepRules ticket rules)

/-- The decision state after steps 1 to 3 of route. -/
def routeAfterStep3 (ticket : Ticket) (agents : List Agent) (teams : List Team) (rules : List Rule) : Routing :=
  stepBestAgent ticket agents (routeAfterStep2 ticket teams rules)

/-- The decision state after steps 1 to 4 of route. -/
def routeAfterStep4 (ticket : Ticket) (agents : List Agent) (teams : List Team) (rules : List Rule) : Routing :=
  stepEscalate ticket agents (routeAfterStep3 ticket agents teams rules)

/-- The decision state after steps 1 to 5 of route. -/
def routeAfterStep5 (ticket : Ticket) (agents : List Agent) (teams : List Team) (rules : List Rule) : Routing :=
  stepLoadBalance agents (routeAfterStep4 ticket agents teams rules)

/-- route from part_002: the five steps in order, then the unconditional
confidence computation. -/
def route (ticket : Ticket) (agents : List Agent) (teams : List Team) (rules : List Rule) : Routing :=
  let r5 := routeAfterStep5 ticket agents teams rules
  { r5 with confidence := calculateRoutingConfidence r5 ticket }

/-! Classification client (src/src/ai/classifier.js). -/

/-- Fixed category domain of the classifier. -/
def CATEGORIES : List String :=
  ["billing", "technical", "feature_request", "bug", "account", "general"]

/-- Fixed priority domain of the classifier. -/
def PRIORITIES : List String := ["low", "medium", "high", "urgent"]

/-- Fixed sentiment label domain of the classifier. -/
def SENTIMENTS : List String := ["positive", "neutral", "negative", "very_negative"]

/-- The sentiment object of the parsed upstream JSON, fields untrusted. -/
structure RawSentiment where
  label : Option String := none
  score : Option ℚ := none
deriving DecidableEq

/-- The confidence object of the parsed upstream JSON, fields untrusted. -/
structure RawConfidence where
  category : Option ℚ := none
  priority : Option ℚ := none
  sentiment : Option ℚ := none
deriving DecidableEq

/-- The parsed upstream JSON response of the classification service; every
field may be absent or out of domain. -/
structure RawClassification where
  category : Option String := none
  priority : Option String := none
  sentiment : Option RawSentiment := none
  confidence : Option RawConfidence := none
  reasoning : Option String := none
deriving DecidableEq

/-- Validated sentiment of a ClassificationResult. -/
structure SentimentResult where
  label : String
  score : ℚ
deriving DecidableEq

/-- Validated per-signal confidences of a ClassificationResult. -/
structure ConfidenceResult where
  category : ℚ
  priority : ℚ
  sentiment : ℚ
deriving DecidableEq

/-- The ClassificationResult classify returns. -/
structure ClassificationResult where
  category : String
  priority : String
  sentiment : SentimentResult
  confidence : ConfidenceResult
  reasoning : String
  modelVersion : String
  modelProvider : String
  processingTimeMs : ℕ
  overallConfidence : ℚ
deriving DecidableEq

/-- The JS membership test LIST.includes(x) for a possibly absent string. -/
def jsIncludes (l : List String) (x : Option String) : Bool :=
  match x with
  | some s => l.contains s
  | none => false

/-- The clamp Math.max(0, Math.min(1, x)) of the confidence fields. -/
def clamp01 (x : ℚ) : ℚ := max 0 (min 1 x)

/-- The clamp Math.max(-1, Math.min(1, x)) of the sentiment score. -/
def clampScore (x : ℚ) : ℚ := max (-1) (min 1 x)

/-- classify from classifier.js. The remote call, the JSON parse and any
other failure inside the try block are modelled by resp = none; a
successful parse passes the untrusted payload as some. model and provider
are the environment-derived MODEL and provider strings, elapsed the wall
time measured by Date.now differences. The success path validates every
enum against its domain (default on miss) and clamps every numeric field;
the catch path returns the fixed fallback result. -/
def classify (model provider : String) (resp : Option RawClassification) (elapsed : ℕ) :
    ClassificationResult :=
  match resp with
  | some result =>
    let confCategory := clamp01 (jsOrNum (result.confidence.bind RawConfidence.category) (1/2))
    let confPriority := clamp01 (jsOrNum (result.confidence.bind RawConfidence.priority) (1/2))
    let confSentiment := clamp01 (jsOrNum (result.confidence.bind RawConfidence.sentiment) (1/2))
    { category := if jsIncludes CATEGORIES result.category then result.category.getD "" else "general"
      priority := if jsIncludes PRIORITIES result.priority then result.priority.getD "" else "medium"
      sentiment :=
        { label :=
            if jsIncludes SENTIMENTS (result.sentiment.bind RawSentiment.label) then
              (result.sentiment.bind RawSentiment.label).getD ""
            else "neutral"
          score := clampScore (jsOrNum (result.sentiment.bind RawSentiment.score) 0) }
      confidence := { category := confCategory, priority := confPriority, sentiment := confSentiment }
      reasoning := result.reasoning.getD ""
      modelVersion := model
      modelProvider := provider
      processingTimeMs := elapsed
      overallConfidence := (confCategory + confPriority + confSentiment) / 3 }
  | none =>
    { category := "general"
      priority := "medium"
      sentiment := { label := "neutral", score := 0 }
      confidence := { category := 0, priority := 0, sentiment := 0 }
      reasoning := "Classification failed"
      modelVersion := model
      modelProvider := provider
      processingTimeMs := elapsed
      overallConfidence := 0 }

/-- The documented invariant of a ClassificationResult: every confidence
and the overall confidence lie in the unit interval, the sentiment score in
the interval from minus one to one, and every enum field in its fixed
domain. -/
def ValidClassification (c : ClassificationResult) : Prop :=
  0 ≤ c.confidence.category ∧ c.confidence.category ≤ 1 ∧
  0 ≤ c.confidence.priority ∧ c.confidence.priority ≤ 1 ∧
  0 ≤ c.confidence.sentiment ∧ c.confidence.sentiment ≤ 1 ∧
  0 ≤ c.overallConfidence ∧ c.overallConfidence ≤ 1 ∧
  -1 ≤ c.sentiment.score ∧ c.sentiment.score ≤ 1 ∧
  c.category ∈ CATEGORIES ∧ c.priority ∈ PRIORITIES ∧ c.sentiment.label ∈ SENTIMENTS

/-! Queue worker (src/src/utils/queue-worker.js). -/

/-- A classification job payload. -/
structure Job where
  ticketId : String
  tenantId : String
  subject : String
  body : String
deriving DecidableEq

/-- A JS Error as inspected by isRetryableError: optional code and message. -/
structure JsError where
  code : Option String := none
  message : Option String := none
deriving DecidableEq

/-- The fixed retryable error taxonomy of QueueWorker.isRetryableError. -/
def retryableCodes : List String :=
  ["ECONNRESET", "ETIMEDOUT", "ECONNREFUSED", "RATE_LIMITED"]

/-- QueueWorker.isRetryableError: the message contains, or the code equals,
one of the retryable codes. -/
def isRetryableError (e : JsError) : Bool :=
  retryableCodes.any (fun c =>
    (match e.message with | some m => strIncludes m c | none => false) || e.code == some c)

/-- The externally visible effects of one QueueWorker.processJob call. -/
structure WorkerEffects where
  retryEnqueued : List Job
  routingEnqueued : List (String × String)
  errorLoggedTicketId : Option String
  raised : Option JsError
deriving DecidableEq

/-- QueueWorker.processJob from queue-worker.js, as a function of the
error (if any) thrown by the awaited collaborator calls inside its try
block (the database writes and the redis push; classify itself never
raises). On success the routing job is enqueued when auto routing is on;
on failure the error is logged with the ticket id, the original job is
pushed once onto the retry queue exactly when the error is retryable, and
the catch block never rethrows, so nothing is raised to the loop. -/
def processJob (job : Job) (autoRouting : Bool) (failure : Option JsError) : WorkerEffects :=
  match failure with
  | none =>
    { retryEnqueued := []
      routingEnqueued := if autoRouting then [(job.ticketId, job.tenantId)] else []
      errorLoggedTicketId := none
      raised := none }
  | some e =>
    { retryEnqueued := if isRetryableError e then [job] else []
      routingEnqueued := []
      errorLoggedTicketId := some job.ticketId
      raised := none }

/-! Concrete inputs used by the witnesses and counterexamples below. -/

/-- An already urgent ticket with keyword-free text. -/
def w1Ticket : Ticket := { priority := some "urgent", subject := "a", body := "b" }

/-- An upstream response whose every enum value is out of domain and whose
numeric fields are out of range. -/
def badRaw : RawClassification :=
  { category := some "xyz"
    priority := some "zzz"
    sentiment := some { label := some "weird", score := some 5 }
    confidence := some { category := some 7, priority := some (-3), sentiment := none }
    reasoning := none }

/-- A ticket with every field at its default. -/
def c4Ticket : Ticket := {}

/-- A rule with priority 1, empty conditions, assigning team TA. -/
def c4RuleA : Rule :=
  { name := "A", priority := some 1, conditions := some [], assign_to_team := some "TA" }

/-- A rule tied with c4RuleA on priority but assigning team TB. -/
def c4RuleB : Rule :=
  { name := "B", priority := some 1, conditions := some [], assign_to_team := some "TB" }

/-- A rule with distinct priority 2, empty conditions, assigning team TC. -/
def c4RuleC : Rule :=
  { name := "C", priority := some 2, conditions := some [], assign_to_team := some "TC" }

/-- A rule with distinct priority 1, empty conditions, assigning team TD. -/
def c4RuleD : Rule :=
  { name := "D", priority := some 1, conditions := some [], assign_to_team := some "TD" }

/-- A non-escalating ticket with no category. -/
def cex5Ticket : Ticket := { subject := "a", body := "b" }

/-- An agent whose active flag is cleared. -/
def cex5Agent : Agent := { id := "A1", is_active := false }

/-- An ordinary agent: no team memberships, no manager role. -/
def w5Agent : Agent := { id := "A2" }

/-- An urgent, hence escalating, ticket. -/
def cex6Ticket : Ticket := { priority := some "urgent", subject := "a", body := "b" }

/-- An ordinary agent, neither team lead nor manager. -/
def cex6Agent : Agent := { id := "P1" }

/-- A manager agent. -/
def w6Agent : Agent := { id := "M1", role := some "manager" }

/-- A classification job payload. -/
def w8Job : Job := { ticketId := "t1", tenantId := "ten1", subject := "s", body := "b" }

/-- A connection-reset error, carried in the code field. -/
def w8Reset : JsError := { code := some "ECONNRESET" }

/-- A non-retryable error. -/
def w8Other : JsError := { code := some "EWEIRD", message := some "boom" }

/-- A rule with the strictly highest priority and an empty condition
object, assigning team T9. -/
def w10Top : Rule :=
  { name := "TOP", priority := some 5, conditions := some [], assign_to_team := some "T9" }

/-- A lower-priority rule with an unsatisfiable condition. -/
def w10Low : Rule :=
  { name := "LOW", priority := some 1,
    conditions := some [("category", CondValue.prim (JsValue.str "billing"))] }

/-! Helper lemmas shared by the claim theorems. -/

theorem head?_mem {α : Type} {l : List α} {a : α} (h : l.head? = some a) : a ∈ l := by
  cases l with
  | nil => simp at h
  | cons x xs =>
    simp only [List.head?_cons, Option.some.injEq] at h
    exact h ▸ List.mem_cons_self x xs

theorem sorted_head_rel {α : Type} {r : α → α → Prop} {l : List α} {a b : α}
    (hs : List.Sorted r l) (h : l.head? = some a) (hb : b ∈ l) : a = b ∨ r a b := by
  cases l with
  | nil => simp at h
  | cons x xs =>
    simp only [List.head?_cons, Option.some.injEq] at h
    subst h
    rcases List.mem_cons.mp hb with hb | hb
    · exact Or.inl hb.symm
    · exact Or.inr ((List.sorted_cons.mp hs).1 b hb)

theorem leastBusy_spec {agents : List Agent} {a : Agent}
    (h : findLeastBusyAgent agents = some a) :
    a ∈ agents ∧ ∀ b ∈ agents, agentLoad a ≤ agentLoad b := by
  unfold findLeastBusyAgent at h
  split at h
  · exact absurd h (by simp)
  · have hperm := List.perm_insertionSort agentLE agents
    have hsorted := List.sorted_insertionSort agentLE agents
    refine ⟨hperm.mem_iff.mp (head?_mem h), ?_⟩
    intro b hb
    rcases sorted_head_rel hsorted h (hperm.mem_iff.mpr hb) with heq | hrel
    · exact heq ▸ le_refl _
    · exact hrel

theorem bestAgent_spec {teamId : String} {agents : List Agent} {ticket : Ticket} {a : Agent}
    (h : findBestAgentInTeam teamId agents ticket = some a) :
    a ∈ agents ∧ teamFilter teamId a = true := by
  unfold findBestAgentInTeam at h
  split at h
  · exact absurd h (by simp)
  · split at h
    · exact absurd h (by simp)
    · rw [Option.map_eq_some'] at h
      obtain ⟨p, hp, hfst⟩ := h
      have hmem := (List.perm_insertionSort scoredGE _).mem_iff.mp (head?_mem hp)
      obtain ⟨b, hb, hbe⟩ := List.mem_map.mp hmem
      have hba : b = a := by rw [← hfst, ← hbe]
      subst hba
      exact ⟨(List.mem_filter.mp hb).1, (List.mem_filter.mp hb).2⟩

theorem sorted_strict_of_nodup {l : List Rule} (hnd : (l.map jsPrio).Nodup)
    (hs : List.Sorted ruleGE l) :
    List.Pairwise (fun a b : Rule => jsPrio b < jsPrio a) l := by
  have hne : List.Pairwise (fun a b : Rule => jsPrio a ≠ jsPrio b) l := List.pairwise_map.mp hnd
  exact (hs.and hne).imp (fun h => lt_of_le_of_ne h.1 (Ne.symm h.2))

theorem sortRules_eq_of_perm {l₁ l₂ : List Rule} (hp : l₁.Perm l₂)
    (hnd : (l₁.map jsPrio).Nodup) :
    List.insertionSort ruleGE l₁ = List.insertionSort ruleGE l₂ := by
  haveI : IsAntisymm Rule (fun a b : Rule => jsPrio b < jsPrio a) :=
    ⟨fun _ _ h1 h2 => absurd h2 (not_lt.mpr (le_of_lt h1))⟩
  have hnd₂ : (l₂.map jsPrio).Nodup := ((hp.map jsPrio).nodup_iff).mp hnd
  have hndS₁ : ((List.insertionSort ruleGE l₁).map jsPrio).Nodup :=
    (((List.perm_insertionSort ruleGE l₁).map jsPrio).nodup_iff).mpr hnd
  have hndS₂ : ((List.insertionSort ruleGE l₂).map jsPrio).Nodup :=
    (((List.perm_insertionSort ruleGE l₂).map jsPrio).nodup_iff).mpr hnd₂
  exact List.eq_of_perm_of_sorted
    ((List.perm_insertionSort ruleGE l₁).trans (hp.trans (List.perm_insertionSort ruleGE l₂).symm))
    (sorted_strict_of_nodup hndS₁ (List.sorted_insertionSort ruleGE l₁))
    (sorted_strict_of_nodup hndS₂ (List.sorted_insertionSort ruleGE l₂))

/-! Claim theorems. -/

/-- Claim C4 counterexample: rule evaluation is not order-independent as
stated. With two rules of equal priority and empty conditions, swapping
the input order changes the matched rule and its actions, although the two
lists are permutations of each other. -/
theorem rule_order_dependence_cex :
    List.Perm [c4RuleA, c4RuleB] [c4RuleB, c4RuleA] ∧
    applyRoutingRules c4Ticket [c4RuleA, c4RuleB] ≠ applyRoutingRules c4Ticket [c4RuleB, c4RuleA] :=
  ⟨List.Perm.swap c4RuleB c4RuleA [], by decide⟩

/-- Claim C4, amended: rule evaluation is order-independent with respect to
the input list ordering provided the effective rule priorities are pairwise
distinct; for every ticket, any two permutations of such a rule list yield
the same matched rule actions. (With tied priorities the stable sort keeps
the input order, so reordering tied rules can change the match, as the
counterexample shows.) -/
theorem rule_eval_perm_invariant (t : Ticket) (l₁ l₂ : List Rule)
    (hp : l₁.Perm l₂) (hnd : (l₁.map jsPrio).Nodup) :
    applyRoutingRules t l₁ = applyRoutingRules t l₂ := by
  have he : l₁.isEmpty = l₂.isEmpty := by
    cases l₁ with
    | nil => rw [(List.perm_nil.mp hp.symm)]
    | cons x xs =>
      cases l₂ with
      | nil => exact absurd (List.perm_nil.mp hp) (by simp)
      | cons y ys => rfl
  unfold applyRoutingRules
  rw [he, sortRules_eq_of_perm hp hnd]

/-- Claim C4 witness: for two concrete rules with distinct priorities, both
orders produce the same matched actions. -/
theorem rule_eval_perm_invariant_witness :
    applyRoutingRules c4Ticket [c4RuleC, c4RuleD] = applyRoutingRules c4Ticket [c4RuleD, c4RuleC] :=
  rule_eval_perm_invariant c4Ticket [c4RuleC, c4RuleD] [c4RuleD, c4RuleC]
    (List.Perm.swap c4RuleD c4RuleC []) (by decide)

/-- Claim C10: a rule whose condition set is the empty object matches every
ticket, a rule whose condition set is absent or null matches none, and an
active rule with empty conditions and the strictly highest effective
priority captures every routing invocation in step 1: applyRoutingRules
returns exactly its actions. -/
theorem empty_conditions_rule_matches :
    (∀ t : Ticket, matchesRule t (some []) = true) ∧
    (∀ t : Ticket, matchesRule t none = false) ∧
    (∀ (t : Ticket) (rules : List Rule) (r : Rule), r ∈ rules → r.is_active = true →
      r.conditions = some [] → (∀ s ∈ rules, s ≠ r → jsPrio s < jsPrio r) →
      applyRoutingRules t rules =
        some ⟨r.name, r.assign_to_team, r.assign_to_user, r.set_priority, r.add_tags⟩) := by
  refine ⟨fun _ => rfl, fun _ => rfl, ?_⟩
  intro t rules r hmem _ hconds hmax
  have hne : rules ≠ [] := List.ne_nil_of_mem hmem
  have hie : ¬ rules.isEmpty = true := fun hh => hne (List.isEmpty_iff.mp hh)
  unfold applyRoutingRules
  rw [if_neg hie]
  obtain ⟨hd, tl, heq⟩ : ∃ hd tl, List.insertionSort ruleGE rules = hd :: tl := by
    cases hs : List.insertionSort ruleGE rules with
    | nil =>
      have h0 := List.perm_insertionSort ruleGE rules
      rw [hs] at h0
      exact absurd (List.perm_nil.mp h0.symm) hne
    | cons x xs => exact ⟨x, xs, rfl⟩
  have hdr : hd = r := by
    by_contra hne2
    have hdmem : hd ∈ rules :=
      (List.perm_insertionSort ruleGE rules).mem_iff.mp (heq ▸ List.mem_cons_self hd tl)
    have hlt : jsPrio hd < jsPrio r := hmax hd hdmem hne2
    have hrmem : r ∈ hd :: tl :=
      heq ▸ (List.perm_insertionSort ruleGE rules).mem_iff.mpr hmem
    rcases List.mem_cons.mp hrmem with h1 | h1
    · exact hne2 h1.symm
    · have hge : ruleGE hd r := (List.sorted_cons.mp (heq ▸ List.sorted_insertionSort ruleGE rules)).1 r h1
      exact absurd hlt (not_lt.mpr hge)
  have hm : matchesRule t r.conditions = true := by rw [hconds]; rfl
  have hfind : List.find? (fun s => matchesRule t s.conditions) (r :: tl) = some r :=
    List.find?_cons_of_pos tl hm
  rw [heq, hdr, hfind]

/-- Claim C10 witness: a concrete rule list where the empty-conditions rule
has the strictly highest priority; applyRoutingRules returns its actions. -/
theorem empty_conditions_rule_matches_witness :
    applyRoutingRules c4Ticket [w10Low, w10Top] =
      some ⟨"TOP", some "T9", none, none, none⟩ :=
  empty_conditions_rule_matches.2.2 c4Ticket [w10Low, w10Top] w10Top
    (by decide) rfl rfl (by decide)

/-- Claim C5 counterexample: route does select agents whose active flag is
cleared. With a pool holding a single inactive agent, the load-balancing
fallback (step 5) assigns it. -/
theorem route_selects_inactive_agent_cex :
    cex5Agent.is_active = false ∧
    (route cex5Ticket [cex5Agent] [] []).assignToUser = some cex5Agent.id :=
  ⟨rfl, rfl⟩

/-- Claim C5, amended: the heuristic steps of route never inspect the
active flag; filtering to active agents is done by the caller that loads
the pool. Within the given pool, step 3 selects only agents belonging to
the assigned team (regardless of the active flag) and step 5 selects an
agent of minimal load ratio across the entire pool (regardless of the
active flag). -/
theorem agent_selection_pool_properties :
    (∀ (teamId : String) (agents : List Agent) (t : Ticket) (a : Agent),
      findBestAgentInTeam teamId agents t = some a →
      a ∈ agents ∧ teamFilter teamId a = true) ∧
    (∀ (agents : List Agent) (a : Agent),
      findLeastBusyAgent agents = some a →
      a ∈ agents ∧ ∀ b ∈ agents, agentLoad a ≤ agentLoad b) :=
  ⟨fun _ _ _ _ h => bestAgent_spec h, fun _ _ h => leastBusy_spec h⟩

/-- Claim C5 witness: on a concrete pool the least-busy selection returns a
member of the pool with minimal load ratio, and notably an inactive agent
is a legitimate pick. -/
theorem agent_selection_pool_properties_witness :
    cex5Agent ∈ [cex5Agent] ∧
    ∀ b ∈ [cex5Agent], agentLoad cex5Agent ≤ agentLoad b :=
  agent_selection_pool_properties.2 [cex5Agent] cex5Agent (by rfl)

/-- Claim C1: whenever the ticket is already urgent, or carries a
very negative sentiment label, or a sentiment score below minus one half,
or its lowercased subject-plus-body text contains one of the fixed
escalation keywords, the decision route returns sets priority urgent and
tags the ticket escalated, for every agent, team and rule input. -/
theorem escalation_forces_urgent_and_tag (ticket : Ticket) (agents : List Agent)
    (teams : List Team) (rules : List Rule)
    (h : ticket.priority = some "urgent" ∨ ticket.sentiment = some "very_negative" ∨
      (∃ q, ticket.sentiment_score = some q ∧ q < -(1/2 : ℚ)) ∨
      (∃ k ∈ escalationKeywords, strIncludes (escalationText ticket) k = true)) :
    (route ticket agents teams rules).setPriority = some "urgent" ∧
    "escalated" ∈ (route ticket agents teams rules).addTags := by
  have hesc : shouldEscalate ticket = true := by
    unfold shouldEscalate
    rcases h with h | h | ⟨q, hq, hlt⟩ | ⟨k, hk, hinc⟩
    · simp [h]
    · simp [h]
    · have h3 : sentimentScoreLow ticket = true := by
        unfold sentimentScoreLow
        rw [hq]
        exact decide_eq_true hlt
      simp [h3]
    · simp only [Bool.or_eq_true]
      exact Or.inr (List.any_eq_true.mpr ⟨k, hk, hinc⟩)
  have h5p : (route ticket agents teams rules).setPriority
      = (stepEscalate ticket agents (routeAfterStep3 ticket agents teams rules)).setPriority := by
    show (stepLoadBalance agents (routeAfterStep4 ticket agents teams rules)).setPriority = _
    unfold stepLoadBalance
    split
    · split <;> rfl
    · rfl
  have h5t : (route ticket agents teams rules).addTags
      = (stepEscalate ticket agents (routeAfterStep3 ticket agents teams rules)).addTags := by
    show (stepLoadBalance agents (routeAfterStep4 ticket agents teams rules)).addTags = _
    unfold stepLoadBalance
    split
    · split <;> rfl
    · rfl
  rw [h5p, h5t]
  unfold stepEscalate
  cases hfs : findSeniorAgent agents (routeAfterStep3 ticket agents teams rules).assignToTeam <;>
    simp [hesc, hfs]

/-- Claim C1 witness: an already urgent ticket is escalated by route on the
empty directory. -/
theorem escalation_forces_urgent_and_tag_witness :
    (route w1Ticket [] [] []).setPriority = some "urgent" ∧
    "escalated" ∈ (route w1Ticket [] [] []).addTags :=
  escalation_forces_urgent_and_tag w1Ticket [] [] [] (Or.inl rfl)

theorem findSeniorAgent_spec {agents : List Agent} {teamId : Option String} {a : Agent}
    (hsen : findSeniorAgent agents teamId = some a) :
    (leadsOf agents teamId ≠ [] →
      a ∈ leadsOf agents teamId ∧ ∀ b ∈ leadsOf agents teamId, agentLoad a ≤ agentLoad b) ∧
    (leadsOf agents teamId = [] →
      a.role = some "manager" ∧ a ∈ managersOf agents ∧
      ∀ b ∈ managersOf agents, agentLoad a ≤ agentLoad b) := by
  unfold findSeniorAgent at hsen
  by_cases hA : agents.isEmpty = true
  · rw [if_pos hA] at hsen
    exact absurd hsen (by simp)
  · rw [if_neg hA] at hsen
    by_cases hL : (leadsOf agents teamId).isEmpty = true
    · have hL0 : (leadsOf agents teamId).isEmpty = true := hL
      rw [if_neg (by simp [hL])] at hsen
      by_cases hM : (managersOf agents).isEmpty = true
      · rw [if_neg (by simp [hM])] at hsen
        exact absurd hsen (by simp)
      · have hMf : (managersOf agents).isEmpty = false := by
          cases hIE : (managersOf agents).isEmpty
          · rfl
          · exact absurd hIE hM
        rw [if_pos (by rw [hMf]; rfl)] at hsen
        obtain ⟨hmem, hmin⟩ := leastBusy_spec hsen
        constructor
        · intro hne
          exact absurd (List.isEmpty_iff.mp hL0) hne
        · intro _
          exact ⟨eq_of_beq (List.mem_filter.mp hmem).2, hmem, hmin⟩
    · have hLf : (leadsOf agents teamId).isEmpty = false := by
        cases hIE : (leadsOf agents teamId).isEmpty
        · rfl
        · exact absurd hIE hL
      rw [if_pos (by rw [hLf]; rfl)] at hsen
      obtain ⟨hmem, hmin⟩ := leastBusy_spec hsen
      constructor
      · intro _
        exact ⟨hmem, hmin⟩
      · intro heq
        exact absurd (by rw [heq]; rfl) hL

theorem escalateLoad_user_some {ticket : Ticket} {agents : List Agent} {r : Routing}
    (h : shouldEscalate ticket = true) {a : Agent}
    (hsen : findSeniorAgent agents r.assignToTeam = some a) (hid : a.id.isEmpty = false) :
    (stepLoadBalance agents (stepEscalate ticket agents r)).assignToUser = some a.id := by
  have h4 : stepEscalate ticket agents r =
      { r with
          setPriority := some "urgent"
          addTags := r.addTags ++ ["escalated"]
          assignToUser := some a.id
          reason := r.reason ++ " (Escalated to senior agent)" } := by
    unfold stepEscalate
    simp [h, hsen]
  rw [h4]
  unfold stepLoadBalance
  simp [jsFalsyStr, hid]

theorem escalateLoad_user_none {ticket : Ticket} {agents : List Agent} {r : Routing}
    (h : shouldEscalate ticket = true)
    (hsen : findSeniorAgent agents r.assignToTeam = none) :
    (stepLoadBalance agents (stepEscalate ticket agents r)).assignToUser =
      (if (jsFalsyStr r.assignToUser && jsFalsyStr r.assignToTeam) = true then
        (match findLeastBusyAgent agents with
          | some lb => some lb.id
          | none => r.assignToUser)
      else r.assignToUser) := by
  have h4 : stepEscalate ticket agents r =
      { r with setPriority := some "urgent", addTags := r.addTags ++ ["escalated"] } := by
    unfold stepEscalate
    simp [h, hsen]
  rw [h4]
  unfold stepLoadBalance
  cases hlb : findLeastBusyAgent agents <;>
    by_cases hcond : (jsFalsyStr r.assignToUser && jsFalsyStr r.assignToTeam) = true <;>
      simp [hlb, hcond]

/-- Claim C6 counterexample: when the ticket escalates, no team lead or
manager exists, and nothing was assigned by step 3, the final assignToUser
is not left unchanged from the pick of step 3 (which was empty): the step 5
load-balancing fallback assigns the only (ordinary) agent. -/
theorem escalation_unchanged_clause_cex :
    shouldEscalate cex6Ticket = true ∧
    findSeniorAgent [cex6Agent] (routeAfterStep3 cex6Ticket [cex6Agent] [] []).assignToTeam = none ∧
    (routeAfterStep3 cex6Ticket [cex6Agent] [] []).assignToUser = none ∧
    (route cex6Ticket [cex6Agent] [] []).assignToUser = some "P1" :=
  ⟨by rfl, by rfl, by rfl, by rfl⟩

/-- Claim C6, amended: when route escalates a ticket, it reassigns
assignToUser to a senior agent with a nonempty id: preferring a team lead
of the already-chosen team (or any team lead when none is chosen), falling
back to any agent with role manager, choosing a least busy candidate
(lowest load over capacity); this reassignment overrides any user chosen by
step 3. If no team lead or manager exists, assignToUser is left unchanged
from the pick of step 3 unless neither a user nor a team had been assigned
by then, in which case the step 5 load-balancing fallback assigns the least
busy agent of the whole pool (if any). -/
theorem escalation_senior_reassignment (ticket : Ticket) (agents : List Agent)
    (teams : List Team) (rules : List Rule) (h : shouldEscalate ticket = true) :
    (∀ a : Agent,
      findSeniorAgent agents (routeAfterStep3 ticket agents teams rules).assignToTeam = some a →
      a.id.isEmpty = false →
      (route ticket agents teams rules).assignToUser = some a.id) ∧
    (∀ a : Agent,
      findSeniorAgent agents (routeAfterStep3 ticket agents teams rules).assignToTeam = some a →
      ((leadsOf agents (routeAfterStep3 ticket agents teams rules).assignToTeam ≠ [] →
        a ∈ leadsOf agents (routeAfterStep3 ticket agents teams rules).assignToTeam ∧
        ∀ b ∈ leadsOf agents (routeAfterStep3 ticket agents teams rules).assignToTeam,
          agentLoad a ≤ agentLoad b) ∧
       (leadsOf agents (routeAfterStep3 ticket agents teams rules).assignToTeam = [] →
        a.role = some "manager" ∧ a ∈ managersOf agents ∧
        ∀ b ∈ managersOf agents, agentLoad a ≤ agentLoad b))) ∧
    (findSeniorAgent agents (routeAfterStep3 ticket agents teams rules).assignToTeam = none →
      (route ticket agents teams rules).assignToUser =
        (if (jsFalsyStr (routeAfterStep3 ticket agents teams rules).assignToUser
            && jsFalsyStr (routeAfterStep3 ticket agents teams rules).assignToTeam) = true then
          (match findLeastBusyAgent agents with
            | some lb => some lb.id
            | none => (routeAfterStep3 ticket agents teams rules).assignToUser)
        else (routeAfterStep3 ticket agents teams rules).assignToUser)) :=
  ⟨fun _ hsen hid => escalateLoad_user_some h hsen hid,
   fun _ hsen => findSeniorAgent_spec hsen,
   fun hsen => escalateLoad_user_none h hsen⟩

/-- Claim C6 witness: for an urgent ticket and a pool holding one manager,
escalation reassigns the decision to that manager. -/
theorem escalation_senior_reassignment_witness :
    (route cex6Ticket [w6Agent] [] []).assignToUser = some w6Agent.id :=
  (escalation_senior_reassignment cex6Ticket [w6Agent] [] [] (by rfl)).1 w6Agent (by rfl) (by rfl)

/-- Claim C7: the final decision confidence always equals the clamped
heuristic sum: one half, plus three tenths when both a team and a user
ended up assigned, plus one tenth when the ticket was AI processed, plus
one tenth when its prior AI confidence exceeds four fifths, clamped at 1;
this last step is unconditional, so it overwrites the 0.9 confidence a rule
match set in step 1 unless the formula happens to reach that value. -/
theorem routing_confidence_formula (ticket : Ticket) (agents : List Agent)
    (teams : List Team) (rules : List Rule) :
    (route ticket agents teams rules).confidence =
      min 1 ((1/2 : ℚ)
        + (if (!jsFalsyStr (route ticket agents teams rules).assignToTeam
            && !jsFalsyStr (route ticket agents teams rules).assignToUser) = true then 3/10 else 0)
        + (if ticket.ai_processed = true then 1/10 else 0)
        + (if aiConfidenceHigh ticket = true then 1/10 else 0)) := by
  have h1 : (route ticket agents teams rules).confidence
      = calculateRoutingConfidence (routeAfterStep5 ticket agents teams rules) ticket := rfl
  have h2 : (route ticket agents teams rules).assignToTeam
      = (routeAfterStep5 ticket agents teams rules).assignToTeam := rfl
  have h3 : (route ticket agents teams rules).assignToUser
      = (routeAfterStep5 ticket agents teams rules).assignToUser := rfl
  rw [h1, h2, h3]
  generalize routeAfterStep5 ticket agents teams rules = R
  unfold calculateRoutingConfidence
  cases hb1 : (!jsFalsyStr R.assignToTeam && !jsFalsyStr R.assignToUser) <;>
    cases hb2 : ticket.ai_processed <;>
      cases hb3 : aiConfidenceHigh ticket <;>
        simp [hb1, hb2, hb3]

theorem clamp01_mem (x : ℚ) : 0 ≤ clamp01 x ∧ clamp01 x ≤ 1 :=
  ⟨le_max_left 0 _, max_le (by norm_num) (min_le_left 1 x)⟩

theorem clampScore_mem (x : ℚ) : -1 ≤ clampScore x ∧ clampScore x ≤ 1 :=
  ⟨le_max_left (-1) _, max_le (by norm_num) (min_le_left 1 x)⟩

theorem mean3_mem {a b c : ℚ} (ha : 0 ≤ a ∧ a ≤ 1) (hb : 0 ≤ b ∧ b ≤ 1)
    (hc : 0 ≤ c ∧ c ≤ 1) : 0 ≤ (a + b + c) / 3 ∧ (a + b + c) / 3 ≤ 1 :=
  ⟨div_nonneg (by linarith [ha.1, hb.1, hc.1]) (by norm_num),
   (div_le_one (by norm_num)).mpr (by linarith [ha.2, hb.2, hc.2])⟩

theorem classify_none_eq (model provider : String) (elapsed : ℕ) :
    classify model provider none elapsed =
      { category := "general"
        priority := "medium"
        sentiment := { label := "neutral", score := 0 }
        confidence := { category := 0, priority := 0, sentiment := 0 }
        reasoning := "Classification failed"
        modelVersion := model
        modelProvider := provider
        processingTimeMs := elapsed
        overallConfidence := 0 } := rfl

theorem ifIncludes_mem (l : List String) (x : Option String) (d : String) (hd : d ∈ l) :
    (if jsIncludes l x then x.getD "" else d) ∈ l := by
  cases hx : jsIncludes l x
  · simp [hx, hd]
  · cases x with
    | none => simp [jsIncludes] at hx
    | some s =>
      simp only [hx, if_true]
      exact List.mem_of_elem_eq_true hx

/-- Claim C2: every ClassificationResult returned by classify, on the
success path and the fallback path alike, has its three confidences and the
overall confidence in the unit interval, its sentiment score between minus
one and one, and its category, priority and sentiment label inside their
fixed domains; moreover any unrecognized enum value in the upstream
response maps to its default (general, medium, neutral) instead of being
rejected. -/
theorem classification_result_bounded (model provider : String)
    (resp : Option RawClassification) (elapsed : ℕ) :
    ValidClassification (classify model provider resp elapsed) ∧
    (∀ r, resp = some r →
      (jsIncludes CATEGORIES r.category = false →
        (classify model provider resp elapsed).category = "general") ∧
      (jsIncludes PRIORITIES r.priority = false →
        (classify model provider resp elapsed).priority = "medium") ∧
      (jsIncludes SENTIMENTS (r.sentiment.bind RawSentiment.label) = false →
        (classify model provider resp elapsed).sentiment.label = "neutral")) := by
  constructor
  · cases resp with
    | none =>
      rw [classify_none_eq]
      unfold ValidClassification
      dsimp only
      decide
    | some r =>
      have hcc := clamp01_mem (jsOrNum (r.confidence.bind RawConfidence.category) (1/2))
      have hcp := clamp01_mem (jsOrNum (r.confidence.bind RawConfidence.priority) (1/2))
      have hcs := clamp01_mem (jsOrNum (r.confidence.bind RawConfidence.sentiment) (1/2))
      have hov := mean3_mem hcc hcp hcs
      have hsc := clampScore_mem (jsOrNum (r.sentiment.bind RawSentiment.score) 0)
      exact ⟨hcc.1, hcc.2, hcp.1, hcp.2, hcs.1, hcs.2, hov.1, hov.2, hsc.1, hsc.2,
        ifIncludes_mem CATEGORIES r.category "general" (by decide),
        ifIncludes_mem PRIORITIES r.priority "medium" (by decide),
        ifIncludes_mem SENTIMENTS (r.sentiment.bind RawSentiment.label) "neutral" (by decide)⟩
  · intro r hr
    subst hr
    refine ⟨fun hx => ?_, fun hx => ?_, fun hx => ?_⟩ <;> simp [classify, hx]

/-- Claim C2 witness: a concrete upstream response with out-of-domain enums
and out-of-range numbers yields a valid result with every enum defaulted. -/
theorem classification_result_bounded_witness :
    ValidClassification (classify "m" "p" (some badRaw) 7) ∧
    (classify "m" "p" (some badRaw) 7).category = "general" ∧
    (classify "m" "p" (some badRaw) 7).priority = "medium" ∧
    (classify "m" "p" (some badRaw) 7).sentiment.label = "neutral" := by
  obtain ⟨h1, h2⟩ := classification_result_bounded "m" "p" (some badRaw) 7
  have h3 := h2 badRaw rfl
  exact ⟨h1, h3.1 (by decide), h3.2.1 (by decide), h3.2.2 (by decide)⟩

/-- Claim C3 counterexample: the fallback result of classify does not have
empty reasoning; it carries the fixed message. -/
theorem fallback_reasoning_nonempty_cex :
    (classify "m" "p" none 5).reasoning = "Classification failed" ∧
    (classify "m" "p" none 5).reasoning ≠ "" :=
  ⟨rfl, by decide⟩

/-- Claim C3, amended: classify never raises to its caller (it is total in
this embedding); any transport or format error from the classification
service is caught internally and converted to the fallback result with all
enum fields at their defaults (general, medium, neutral), all three
confidence values 0, overallConfidence 0, reasoning the fixed non-empty
message Classification failed, and processingTimeMs equal to the elapsed
wall time up to the failure point. -/
theorem classify_failure_fallback (model provider : String) (elapsed : ℕ) :
    classify model provider none elapsed =
      { category := "general"
        priority := "medium"
        sentiment := { label := "neutral", score := 0 }
        confidence := { category := 0, priority := 0, sentiment := 0 }
        reasoning := "Classification failed"
        modelVersion := model
        modelProvider := provider
        processingTimeMs := elapsed
        overallConfidence := 0 } :=
  classify_none_eq model provider elapsed

/-- Claim C9: for every ClassificationResult returned by classify, on the
success and the fallback path alike, the overall confidence equals the
arithmetic mean of the three per-signal confidences; numbers are modelled
as rationals, so the identity is exact. -/
theorem overall_confidence_is_mean (model provider : String)
    (resp : Option RawClassification) (elapsed : ℕ) :
    (classify model provider resp elapsed).overallConfidence =
      ((classify model provider resp elapsed).confidence.category
        + (classify model provider resp elapsed).confidence.priority
        + (classify model provider resp elapsed).confidence.sentiment) / 3 := by
  cases resp <;> simp [classify]

/-- Claim C8: an error raised during job processing that belongs to the
fixed retryable taxonomy (matched against the message by containment or
the code by equality) re-enqueues the original job exactly once onto the
retry queue, is logged with the ticket id, and is not propagated to the
loop; any other per-job error is logged with the ticket id and dropped
without re-enqueueing. -/
theorem worker_retry_policy (job : Job) (autoRouting : Bool) (e : JsError) :
    (isRetryableError e = true →
      (processJob job autoRouting (some e)).retryEnqueued = [job] ∧
      (processJob job autoRouting (some e)).raised = none ∧
      (processJob job autoRouting (some e)).errorLoggedTicketId = some job.ticketId) ∧
    (isRetryableError e = false →
      (processJob job autoRouting (some e)).retryEnqueued = [] ∧
      (processJob job autoRouting (some e)).raised = none ∧
      (processJob job autoRouting (some e)).errorLoggedTicketId = some job.ticketId) ∧
    (isRetryableError e = true ↔
      ∃ c ∈ retryableCodes, e.code = some c ∨ ∃ m, e.message = some m ∧ strIncludes m c = true) := by
  refine ⟨fun h => ?_, fun h => ?_, ?_⟩
  · simp [processJob, h]
  · simp [processJob, h]
  · unfold isRetryableError
    rw [List.any_eq_true]
    constructor
    · rintro ⟨c, hc, hcb⟩
      refine ⟨c, hc, ?_⟩
      rw [Bool.or_eq_true] at hcb
      rcases hcb with hm | hcode
      · cases hmsg : e.message with
        | none => rw [hmsg] at hm; exact absurd hm (by simp)
        | some m => rw [hmsg] at hm; exact Or.inr ⟨m, rfl, hm⟩
      · exact Or.inl (eq_of_beq hcode)
    · rintro ⟨c, hc, hcase⟩
      refine ⟨c, hc, ?_⟩
      rw [Bool.or_eq_true]
      rcases hcase with hcode | ⟨m, hm, hinc⟩
      · right
        rw [hcode]
        exact beq_self_eq_true (some c)
      · left
        rw [hm]
        exact hinc

/-- Claim C8 witness: a connection-reset error re-enqueues the job exactly
once onto the retry queue, a non-retryable error drops it, and neither is
raised to the loop. -/
theorem worker_retry_policy_witness :
    (processJob w8Job true (some w8Reset)).retryEnqueued = [w8Job] ∧
    (processJob w8Job true (some w8Reset)).raised = none ∧
    (processJob w8Job true (some w8Other)).retryEnqueued = [] ∧
    (processJob w8Job true (some w8Other)).raised = none :=
  ⟨((worker_retry_policy w8Job true w8Reset).1 (by decide)).1,
   ((worker_retry_policy w8Job true w8Reset).1 (by decide)).2.1,
   ((worker_retry_policy w8Job true w8Other).2.1 (by decide)).1,
   ((worker_retry_policy w8Job true w8Other).2.1 (by decide)).2.1⟩

end TicketAI
